import Mathlib

/-!
Shallow embedding of the dbus-rust binding (`src/dbus.rs`).

Native pointers are modelled as `Nat`, with `0` standing for the null
pointer.  Each fallible native call (`dbus_connection_open_private`,
`dbus_bus_register`, `dbus_bus_request_name`) is modelled by a "reply"
structure describing the state the native library leaves behind: the
returned value, the contents of the out-parameter error struct, and the
boolean that `dbus_error_is_set` reports afterwards.  Panics (`assert!`,
`fail!`) are modelled by the `panic` constructor of `Outcome`.
-/

/-- Result of a binding-layer operation: success, a typed error, or a
process-aborting panic carrying the panic message. -/
inductive Outcome (ε α : Type) where
  | ok : α → Outcome ε α
  | err : ε → Outcome ε α
  | panic : String → Outcome ε α
  deriving DecidableEq, Repr

/-- The native error struct (`struct DBusError` in the source): `name` and
`message` are C-string pointers (0 = null); the bitfield and padding are
mirrored for layout only and never interpreted. -/
structure DBusError where
  name : Nat
  message : Nat
  _bitfields : Nat
  _padding1 : Nat
  deriving DecidableEq, Repr

/-- Models `DBusError::new_unsafe` (the name is shortened here): after
`dbus_error_init` the struct is zeroed, name and message both null. -/
def DBusError.new_zeroed : DBusError := ⟨0, 0, 0, 0⟩

/-- `DBusError::check_safe`: both name and message pointers non-null. -/
def DBusError.check_safe (e : DBusError) : Bool :=
  e.name != 0 && e.message != 0

/-- Model of the old-Rust `std::c_str::CString`: a raw buffer pointer plus
an ownership flag; construction just stores both fields. -/
structure CString where
  buf : Nat
  owns_buffer : Bool
  deriving DecidableEq, Repr

/-- `CString::new(buf, owns_buffer)`: total, no null check at construction. -/
def CString.new (buf : Nat) (owns_buffer : Bool) : CString :=
  ⟨buf, owns_buffer⟩

/-- `DBusError::get_name`: wraps the name pointer in a non-owning view. -/
def DBusError.get_name (e : DBusError) : CString :=
  CString.new e.name false

/-- `DBusError::get_message`: wraps the message pointer in a non-owning view. -/
def DBusError.get_message (e : DBusError) : CString :=
  CString.new e.message false

/-- `DBusDispatchStatus` enum with its forward-compatibility escape case. -/
inductive DBusDispatchStatus where
  | DataRemains
  | Complete
  | NeedMemory
  | Unknown (n : Int)
  deriving DecidableEq, Repr

def DBusDispatchStatus.DATA_REMAINS : Int := 0

def DBusDispatchStatus.COMPLETE : Int := 1

def DBusDispatchStatus.NEED_MEMORY : Int := 2

/-- `DBusDispatchStatus::from_ord`. -/
def DBusDispatchStatus.from_ord (result : Int) : DBusDispatchStatus :=
  if result = DATA_REMAINS then .DataRemains
  else if result = COMPLETE then .Complete
  else if result = NEED_MEMORY then .NeedMemory
  else .Unknown result

/-- `DBusHandlerResult` enum with its forward-compatibility escape case. -/
inductive DBusHandlerResult where
  | Handled
  | NotYetHandled
  | NeedMemory
  | Unknown (n : Int)
  deriving DecidableEq, Repr

def DBusHandlerResult.HANDLED : Int := 0

def DBusHandlerResult.NOT_YET_HANDLED : Int := 1

def DBusHandlerResult.NEED_MEMORY : Int := 2

/-- `DBusHandlerResult::from_ord`. -/
def DBusHandlerResult.from_ord (result : Int) : DBusHandlerResult :=
  if result = HANDLED then .Handled
  else if result = NOT_YET_HANDLED then .NotYetHandled
  else if result = NEED_MEMORY then .NeedMemory
  else .Unknown result

/-- `DBusTimeout` value type. -/
inductive DBusTimeout where
  | Default
  | Infinite
  | Milliseconds (millis : Int)
  deriving DecidableEq, Repr

def DBusTimeout.default : DBusTimeout := .Default

def DBusTimeout.infinite : DBusTimeout := .Infinite

/-- `DBusTimeout::millis`: guarded constructor, `fail!` outside the range. -/
def DBusTimeout.millis (millis : Int) : Outcome Unit DBusTimeout :=
  if 0 ≤ millis ∧ millis < 0x7FFFFFFF then .ok (.Milliseconds millis)
  else .panic "0 <= millis < 0x7FFFFFFF"

/-- `DBusInterfaceElement`: a method or signal descriptor. -/
inductive DBusInterfaceElement where
  | Method (name : String) (argspec : String) (argnames : List String) (retspec : String)
  | Signal (name : String) (retspec : String)
  deriving DecidableEq, Repr

/-- `DBusInterface`: a named interface descriptor with its member list. -/
structure DBusInterface where
  name : String
  members : List DBusInterfaceElement
  deriving DecidableEq, Repr

/-- `DBusInterface::new`. -/
def DBusInterface.new (name : String) : DBusInterface :=
  ⟨name, []⟩

/-- `DBusInterface::add_member`: `Vec::push`, append at the end. -/
def DBusInterface.add_member (self : DBusInterface) (elem : DBusInterfaceElement) : DBusInterface :=
  { self with members := self.members ++ [elem] }

/-- `DBusInterface::add_method`. -/
def DBusInterface.add_method (self : DBusInterface) (name : String) (argspec : String)
    (argnames : List String) (retspec : String) : DBusInterface :=
  self.add_member (.Method name argspec argnames retspec)

/-- `DBusInterface::add_signal`. -/
def DBusInterface.add_signal (self : DBusInterface) (name : String) (retspec : String) : DBusInterface :=
  self.add_member (.Signal name retspec)

/-- A connection handle: owns one native connection pointer. -/
structure DBusConnection where
  ptr : Nat
  deriving DecidableEq, Repr

/-- Native calls a binding operation can issue, for tracing resource use. -/
inductive NativeCall where
  | error_init
  | open_private (address : List Nat)
  | error_is_set
  | close (p : Nat)
  | unref (p : Nat)
  | error_free
  deriving DecidableEq, Repr

/-- `Drop for DBusConnection`: the exact sequence of native calls issued
when a connection handle is destroyed. -/
def DBusConnection.drop (self : DBusConnection) : List NativeCall :=
  [.close self.ptr, .unref self.ptr]

/-- State the native library leaves after `dbus_connection_open_private`:
returned connection pointer, error-struct contents, `dbus_error_is_set`. -/
structure OpenReply where
  conn : Nat
  err : DBusError
  err_is_set : Bool
  deriving DecidableEq, Repr

/-- `DBusConnection::open`.  Returns the operation's outcome paired with
the list of native calls the operation issued (the error struct is freed
when it is dropped inside the call: on the success path, and during
unwinding on the panic path; on the `Err` path its ownership moves to the
caller, so no free happens here). -/
def DBusConnection.«open» (address : List Nat) (reply : OpenReply) :
    Outcome DBusError DBusConnection × List NativeCall :=
  let trace : List NativeCall := [.error_init, .open_private address, .error_is_set]
  if reply.err_is_set then
    if reply.err.check_safe then
      (.err reply.err, trace)
    else
      (.panic "assertion failed: error.check_safe()", trace ++ [.error_free])
  else
    (.ok ⟨reply.conn⟩, trace ++ [.error_free])

/-- State the native library leaves after `dbus_bus_register`: the `u32`
return value (which the binding discards), error contents, is-set flag. -/
structure RegisterReply where
  retcode : Nat
  err : DBusError
  err_is_set : Bool
  deriving DecidableEq, Repr

/-- `DBusConnection::bus_register`. -/
def DBusConnection.bus_register (reply : RegisterReply) : Outcome DBusError Unit :=
  if reply.err_is_set then
    if reply.err.check_safe then .err reply.err
    else .panic "assertion failed: error.check_safe()"
  else .ok ()

/-- State the native library leaves after `dbus_bus_request_name`. -/
structure RequestNameReply where
  response : Int
  err : DBusError
  err_is_set : Bool
  deriving DecidableEq, Repr

/-- `DBusConnection::bus_request_name`.  Note the source's check on the
error path: it panics when `check_safe()` is TRUE and returns `Err` when
it is false. -/
def DBusConnection.bus_request_name (reply : RequestNameReply) : Outcome DBusError Int :=
  if reply.err_is_set then
    if reply.err.check_safe then .panic "unsafe error after dbus_bus_request_name"
    else .err reply.err
  else
    if reply.response > 0 then .ok reply.response
    else .panic "assertion failed: response > 0"

/-- `get_dbus_session_address`: scan an environment snapshot for the first
binding of `DBUS_SESSION_BUS_ADDRESS`. -/
def get_dbus_session_address : List (String × String) → Option String
  | [] => none
  | kv :: rest =>
    if kv.1 = "DBUS_SESSION_BUS_ADDRESS" then some kv.2
    else get_dbus_session_address rest

/-! ## Claim theorems -/

/-- C1 (code-bug evidence): `bus_request_name` inverts the consistency
check.  When the native call sets a consistent error (name and message
both non-null) the operation panics with "unsafe error after
dbus_bus_request_name" instead of returning the typed failure the
uniform design rule requires; when the error is inconsistent it returns
it as `Err` instead of panicking. -/
theorem C1_bus_request_name_inverted_consistency_check :
    DBusConnection.bus_request_name ⟨0, ⟨1, 2, 0, 0⟩, true⟩ =
      Outcome.panic "unsafe error after dbus_bus_request_name" ∧
    DBusConnection.bus_request_name ⟨0, ⟨0, 0, 0, 0⟩, true⟩ =
      Outcome.err ⟨0, 0, 0, 0⟩ ∧
    DBusError.check_safe ⟨1, 2, 0, 0⟩ = true ∧
    DBusError.check_safe ⟨0, 0, 0, 0⟩ = false :=
  ⟨rfl, rfl, rfl, rfl⟩

/-- C2: destroying a connection handle issues exactly one `close` followed
by exactly one `unref` on the handle's pointer, in that order. -/
theorem C2_drop_close_then_unref (c : DBusConnection) :
    DBusConnection.drop c = [NativeCall.close c.ptr, NativeCall.unref c.ptr] ∧
    (DBusConnection.drop c).count (NativeCall.close c.ptr) = 1 ∧
    (DBusConnection.drop c).count (NativeCall.unref c.ptr) = 1 := by
  refine ⟨rfl, ?_, ?_⟩ <;> simp [DBusConnection.drop, List.count_cons]

/-- C3: both ordinal mappings are total: 0, 1, 2 map to the three named
variants and every other ordinal maps to `Unknown` carrying the raw
ordinal. -/
theorem C3_from_ord_total (n : Int) (h0 : n ≠ 0) (h1 : n ≠ 1) (h2 : n ≠ 2) :
    DBusDispatchStatus.from_ord 0 = .DataRemains ∧
    DBusDispatchStatus.from_ord 1 = .Complete ∧
    DBusDispatchStatus.from_ord 2 = .NeedMemory ∧
    DBusHandlerResult.from_ord 0 = .Handled ∧
    DBusHandlerResult.from_ord 1 = .NotYetHandled ∧
    DBusHandlerResult.from_ord 2 = .NeedMemory ∧
    DBusDispatchStatus.from_ord n = .Unknown n ∧
    DBusHandlerResult.from_ord n = .Unknown n := by
  refine ⟨rfl, rfl, rfl, rfl, rfl, rfl, ?_, ?_⟩
  · simp [DBusDispatchStatus.from_ord, DBusDispatchStatus.DATA_REMAINS,
      DBusDispatchStatus.COMPLETE, DBusDispatchStatus.NEED_MEMORY, h0, h1, h2]
  · simp [DBusHandlerResult.from_ord, DBusHandlerResult.HANDLED,
      DBusHandlerResult.NOT_YET_HANDLED, DBusHandlerResult.NEED_MEMORY, h0, h1, h2]

/-- C3 witness: the mapping at the concrete out-of-range ordinal -5. -/
theorem C3_from_ord_total_witness :
    DBusDispatchStatus.from_ord 0 = .DataRemains ∧
    DBusDispatchStatus.from_ord 1 = .Complete ∧
    DBusDispatchStatus.from_ord 2 = .NeedMemory ∧
    DBusHandlerResult.from_ord 0 = .Handled ∧
    DBusHandlerResult.from_ord 1 = .NotYetHandled ∧
    DBusHandlerResult.from_ord 2 = .NeedMemory ∧
    DBusDispatchStatus.from_ord (-5) = .Unknown (-5) ∧
    DBusHandlerResult.from_ord (-5) = .Unknown (-5) :=
  C3_from_ord_total (-5) (by decide) (by decide) (by decide)

/-- C4: `millis` succeeds, preserving the value, exactly on the range
`[0, 0x7FFFFFFF)`; outside it (negative, or at the sentinel and above) it
panics rather than returning a recoverable error. -/
theorem C4_millis_range (m : Int) :
    (0 ≤ m ∧ m < 0x7FFFFFFF →
      DBusTimeout.millis m = Outcome.ok (DBusTimeout.Milliseconds m)) ∧
    (¬(0 ≤ m ∧ m < 0x7FFFFFFF) →
      DBusTimeout.millis m = Outcome.panic "0 <= millis < 0x7FFFFFFF") := by
  constructor <;> intro h <;> simp [DBusTimeout.millis, h]

/-- C4 witness: in-range value 42 is preserved; the sentinel 0x7FFFFFFF
and the negative value -1 panic. -/
theorem C4_millis_range_witness :
    DBusTimeout.millis 42 = Outcome.ok (DBusTimeout.Milliseconds 42) ∧
    DBusTimeout.millis 0x7FFFFFFF = Outcome.panic "0 <= millis < 0x7FFFFFFF" ∧
    DBusTimeout.millis (-1) = Outcome.panic "0 <= millis < 0x7FFFFFFF" :=
  ⟨(C4_millis_range 42).1 (by decide),
   (C4_millis_range 0x7FFFFFFF).2 (by decide),
   (C4_millis_range (-1)).2 (by decide)⟩

/-- C5: when the native call does not set the error, `bus_request_name`
returns `Ok` with the (strictly positive) reply code; a non-positive code
on the success path is an assertion failure, not a return value. -/
theorem C5_request_name_success_positive (response : Int) (e : DBusError) :
    (0 < response →
      DBusConnection.bus_request_name ⟨response, e, false⟩ = Outcome.ok response) ∧
    (response ≤ 0 →
      DBusConnection.bus_request_name ⟨response, e, false⟩ =
        Outcome.panic "assertion failed: response > 0") := by
  constructor <;> intro h <;>
    simp [DBusConnection.bus_request_name, h, Int.not_lt.mpr]

/-- C5 witness: success path at reply codes 1 and 0 with a zeroed error. -/
theorem C5_request_name_success_positive_witness :
    DBusConnection.bus_request_name ⟨1, ⟨0, 0, 0, 0⟩, false⟩ = Outcome.ok 1 ∧
    DBusConnection.bus_request_name ⟨0, ⟨0, 0, 0, 0⟩, false⟩ =
      Outcome.panic "assertion failed: response > 0" :=
  ⟨(C5_request_name_success_positive 1 ⟨0, 0, 0, 0⟩).1 (by decide),
   (C5_request_name_success_positive 0 ⟨0, 0, 0, 0⟩).2 (by decide)⟩

/-- C6: on failure `open` returns the populated error and the native-call
trace holds no `close` and no `unref` (only init, open_private, is_set);
on success — given the native contract that an unset error means a
non-null returned pointer — the result is `Ok` of a handle whose `ptr`
field is exactly that non-null pointer (the field is immutable, so it is
non-null for the handle's whole lifetime). -/
theorem C6_open_failure_holds_nothing_success_nonnull (address : List Nat) (reply : OpenReply) :
    (reply.err_is_set = true → reply.err.check_safe = true →
      (DBusConnection.«open» address reply).1 = Outcome.err reply.err ∧
      (DBusConnection.«open» address reply).2 =
        [NativeCall.error_init, NativeCall.open_private address, NativeCall.error_is_set]) ∧
    (reply.err_is_set = false → reply.conn ≠ 0 →
      (DBusConnection.«open» address reply).1 = Outcome.ok ⟨reply.conn⟩ ∧
      reply.conn ≠ 0) := by
  constructor
  · intro hset hsafe
    exact ⟨by simp [DBusConnection.«open», hset, hsafe], by simp [DBusConnection.«open», hset, hsafe]⟩
  · intro hset hconn
    exact ⟨by simp [DBusConnection.«open», hset], hconn⟩

/-- C6 witness: a concrete failing reply (consistent error set, null
pointer) and a concrete succeeding reply (pointer 5, zeroed error). -/
theorem C6_open_failure_holds_nothing_success_nonnull_witness :
    ((DBusConnection.«open» [1] ⟨0, ⟨3, 4, 0, 0⟩, true⟩).1 = Outcome.err ⟨3, 4, 0, 0⟩ ∧
      (DBusConnection.«open» [1] ⟨0, ⟨3, 4, 0, 0⟩, true⟩).2 =
        [NativeCall.error_init, NativeCall.open_private [1], NativeCall.error_is_set]) ∧
    ((DBusConnection.«open» [1] ⟨5, ⟨0, 0, 0, 0⟩, false⟩).1 = Outcome.ok ⟨5⟩ ∧
      (5 : Nat) ≠ 0) :=
  ⟨(C6_open_failure_holds_nothing_success_nonnull [1] ⟨0, ⟨3, 4, 0, 0⟩, true⟩).1 rfl rfl,
   (C6_open_failure_holds_nothing_success_nonnull [1] ⟨5, ⟨0, 0, 0, 0⟩, false⟩).2 rfl (by decide)⟩

/-- C7: `new` yields the given name and an empty member list; `add_method`
and `add_signal` each append exactly one element at the end with all
fields stored unchanged (so insertion order is preserved across any
sequence of add calls); the one-method "Frobulate" descriptor has a
singleton member list with the method's fields recoverable unchanged. -/
theorem C7_interface_builder (nm n a r : String) (args : List String) (i : DBusInterface) :
    (DBusInterface.new nm).name = nm ∧
    (DBusInterface.new nm).members = [] ∧
    (i.add_method n a args r).members = i.members ++ [.Method n a args r] ∧
    (i.add_method n a args r).name = i.name ∧
    (i.add_signal n r).members = i.members ++ [.Signal n r] ∧
    (i.add_signal n r).name = i.name ∧
    ((DBusInterface.new "org.yasashiisyndicate.Frobulator").add_method
        "Frobulate" "s" ["value"] "s").members =
      [.Method "Frobulate" "s" ["value"] "s"] ∧
    ((DBusInterface.new "org.yasashiisyndicate.Frobulator").add_method
        "Frobulate" "s" ["value"] "s").members.length = 1 :=
  ⟨rfl, rfl, rfl, rfl, rfl, rfl, rfl, rfl⟩

/-- C8: the session-discovery lookup returns `none` when no pair in the
environment snapshot binds DBUS_SESSION_BUS_ADDRESS, and `some v` when
the (first) binding of that variable has value `v`. -/
theorem C8_session_address_lookup (env : List (String × String)) :
    ((∀ p ∈ env, p.1 ≠ "DBUS_SESSION_BUS_ADDRESS") →
      get_dbus_session_address env = none) ∧
    (∀ v, env.lookup "DBUS_SESSION_BUS_ADDRESS" = some v →
      get_dbus_session_address env = some v) := by
  induction env with
  | nil => exact ⟨fun _ => rfl, fun v h => by simp [List.lookup] at h⟩
  | cons kv rest ih =>
    constructor
    · intro habs
      have hk : kv.1 ≠ "DBUS_SESSION_BUS_ADDRESS" := habs kv (by simp)
      simp only [get_dbus_session_address, if_neg hk]
      exact ih.1 fun p hp => habs p (by simp [hp])
    · intro v hv
      rcases kv with ⟨k, w⟩
      by_cases hk : k = "DBUS_SESSION_BUS_ADDRESS"
      · subst hk
        simp [List.lookup] at hv
        simp [get_dbus_session_address, hv]
      · have hne : ("DBUS_SESSION_BUS_ADDRESS" == k) = false := by
          rw [beq_eq_false_iff_ne]
          exact fun h => hk h.symm
        simp only [List.lookup, hne] at hv
        simpa [get_dbus_session_address, hk] using ih.2 v hv

/-- C8 witness: a snapshot without the variable gives `none`; a snapshot
binding it to "unix:path=/run/bus" gives that value. -/
theorem C8_session_address_lookup_witness :
    get_dbus_session_address [("HOME", "/root"), ("TERM", "xterm")] = none ∧
    get_dbus_session_address
        [("HOME", "/root"), ("DBUS_SESSION_BUS_ADDRESS", "unix:path=/run/bus")] =
      some "unix:path=/run/bus" :=
  ⟨(C8_session_address_lookup [("HOME", "/root"), ("TERM", "xterm")]).1 (by decide),
   (C8_session_address_lookup
      [("HOME", "/root"), ("DBUS_SESSION_BUS_ADDRESS", "unix:path=/run/bus")]).2
     "unix:path=/run/bus" (by decide)⟩

/-- C9: `bus_register` discards the native return code: the outcome is the
same for any two return codes given the same error-object state. -/
theorem C9_register_ignores_retcode (r1 r2 : Nat) (e : DBusError) (s : Bool) :
    DBusConnection.bus_register ⟨r1, e, s⟩ = DBusConnection.bus_register ⟨r2, e, s⟩ :=
  rfl

/-- C10: on an error object in the not-set state (name and message both
null) `get_name` and `get_message` still run: each totally constructs a
non-owning view over the null pointer rather than failing or returning
an option. -/
theorem C10_get_name_message_no_precondition (e : DBusError)
    (hn : e.name = 0) (hm : e.message = 0) :
    e.get_name = CString.new 0 false ∧
    e.get_message = CString.new 0 false ∧
    e.get_name.owns_buffer = false ∧
    e.get_message.owns_buffer = false ∧
    e.get_name.buf = 0 ∧
    e.get_message.buf = 0 := by
  simp [DBusError.get_name, DBusError.get_message, CString.new, hn, hm]

/-- C10 witness: the freshly initialized, zeroed error object. -/
theorem C10_get_name_message_no_precondition_witness :
    DBusError.new_zeroed.get_name = CString.new 0 false ∧
    DBusError.new_zeroed.get_message = CString.new 0 false ∧
    DBusError.new_zeroed.get_name.owns_buffer = false ∧
    DBusError.new_zeroed.get_message.owns_buffer = false ∧
    DBusError.new_zeroed.get_name.buf = 0 ∧
    DBusError.new_zeroed.get_message.buf = 0 :=
  C10_get_name_message_no_precondition DBusError.new_zeroed rfl rfl
